import Mathlib

/-!
Verification of the simulation subsystem of the repository
(`backend/app/services/simulation.py`, with its collaborators
`backend/app/services/memory.py` and `backend/app/services/ollama.py`).

The development is a shallow embedding:

* the Dialogue Engine (`run_simulation` and its helpers) is embedded as a
  pure function over an abstract generation capability;
* the Job Registry / Coordinator (`SimulationCoordinator`) is embedded as a
  state-transition system: the mutating operations (`start_simulation`,
  `get_job`, `shutdown`, and the internal `_execute_job` task) become
  transitions on an explicit coordinator state, interleaved arbitrarily,
  which models the single-threaded cooperative (asyncio) scheduling of the
  source.

Machine-level conventions used throughout:

* Python `str` is Lean `String`; Python `float` (wall-clock seconds of the
  event loop) is `ℚ`; Python `int` is `Int`.
* Python `None`-able values are `Option`s; the truthiness test `if x:` on an
  optional string is `x ≠ none ∧ x ≠ some ""`, and on an optional number it
  is `x ≠ none ∧ x ≠ some 0`, matching CPython semantics.
* A Python call that passes a keyword argument absent from the callee's
  parameter list raises `TypeError` before the callee's body runs; where
  this is reachable it is embedded explicitly (this matters: simulation.py
  line 197 passes `options=` to `generate`, and line 217 passes
  `max_tokens=` to `generate_summary`, and neither callee declares such a
  parameter).
-/

namespace SimSpec

/-! ## Data model

`backend/app/models/simulation.py` is not part of the sources given; the
record shapes below are modelled from the spec (section 3, DATA MODEL) and
from their uses in `simulation.py`.  They are plain data containers with no
logic of their own. -/

/-- Modelled from the spec: a simulation participant has a `role`
(display name) and an optional free-text `persona`. -/
structure SimulationParticipant where
  role : String
  persona : Option String
deriving DecidableEq, Repr

/-- Modelled from the spec: a simulation request has a number of `turns`
(positive integer), an optional scenario `context`, and an ordered list of
participants. -/
structure SimulationRequest where
  turns : Nat
  context : Option String
  participants : List SimulationParticipant
deriving DecidableEq, Repr

/-- `ChatMessage` from `backend/app/models/chat.py`: author role and message
text.  The source also stamps a creation timestamp (`datetime.utcnow`); the
wall-clock stamp is irrelevant to every claim considered here and is elided
from the record. -/
structure ChatMessage where
  role : String
  content : String
deriving DecidableEq, Repr

/-- Modelled from the spec: job status enumeration
(Pending, Running, Completed, Failed). -/
inductive SimulationJobStatus where
  | pending
  | running
  | completed
  | failed
deriving DecidableEq, Repr

/-- Modelled from the spec: a completed simulation's payload: the ordered
transcript and the closing summary.  The source also carries the derived
relationship graph, a pure projection of transcript and summary
(`_build_simulation_graph`); no claim examines its contents, and the
success path that would build it is unreachable (see `run_simulation`
below), so it is elided from the record. -/
structure SimulationResponse where
  messages : List ChatMessage
  summary : String
deriving DecidableEq, Repr

/-- Modelled from the spec: the caller-facing job snapshot returned by the
coordinator (`SimulationJob`): identifier, status, optional result,
optional error.  Job identifiers are `uuid4`-based opaque strings in the
source; uuid freshness is modelled by allocating consecutive `Nat`
identifiers. -/
structure SimulationJob where
  jobId : Nat
  status : SimulationJobStatus
  result : Option SimulationResponse
  error : Option String
deriving DecidableEq, Repr

/-! ## The generation capability

The engine is duck-typed over any object exposing an async `generate`
method (spec section 6).  A capability is modelled by

* whether its `generate` declares a parameter able to bind the `options`
  keyword (the concrete `OllamaClient.generate` in
  `backend/app/services/ollama.py` declares `(self, prompt, context=None)`
  and does *not*; the stub clients in the repository's own test suite
  declare `(self, prompt)` and do not either);
* its behaviour at each successive call: the reply returned, or an
  exception raised, or a hang (never returning), as a function of the call
  index, the prompt, and the `num_predict` option value received. -/

/-- Outcome of one call to the capability's `generate`. -/
inductive GenOutcome where
  | ok (reply : String)
  | raise (msg : String)
  | hang
deriving DecidableEq, Repr

/-- An external generation capability (duck-typed client). -/
structure GenCap where
  /-- whether `generate` has a parameter binding the keyword `options` -/
  acceptsOptions : Bool
  /-- behaviour of the n-th call, given the prompt and the forwarded
  `num_predict` value (if any) -/
  call : Nat → String → Option Int → GenOutcome

/-- Python-level errors that can escape the engine. -/
inductive PyError where
  | typeError (msg : String)
  | simulationError (msg : String)
deriving DecidableEq, Repr

/-- Result of running (part of) the engine: a value, an escaped exception,
or divergence (an await that never returns, possible only when no per-call
timeout is configured). -/
inductive RunResult (α : Type) where
  | ok (a : α)
  | error (e : PyError)
  | diverges
deriving DecidableEq, Repr

/-! ## Dialogue Engine: prompt construction (simulation.py lines 26-60) -/

/-- Python truthiness of an optional string (`if s:`). -/
def strTruthy : Option String → Bool
  | none => false
  | some s => s ≠ ""

/-- `_PromptContext.render_conversation` (simulation.py lines 33-41):
the conversation so far as plain text. -/
def renderConversation (req : SimulationRequest) (messages : List ChatMessage) : String :=
  let historyLines : List String :=
    (if strTruthy req.context then ["Scenario: " ++ req.context.getD ""] else [])
      ++ messages.map (fun m => m.role ++ ": " ++ m.content)
  if historyLines.isEmpty then "(no previous dialogue)"
  else String.intercalate "\n" historyLines

/-- `_build_prompt` (simulation.py lines 44-60). -/
def buildPrompt (req : SimulationRequest) (messages : List ChatMessage)
    (participant : SimulationParticipant) : String :=
  let personaSection :=
    if strTruthy participant.persona then
      "\nPersona guidance: " ++ (participant.persona.getD "").trim
    else ""
  let conversation := renderConversation req messages
  "You are " ++ participant.role ++
    ", participating in a round-table discussion with other expert agents." ++
    personaSection ++ "\n" ++
    "Respond with a single, well-formed message that reflects your expertise and advances the conversation.\n" ++
    "Do not narrate actions or mention that you are an AI model.\n" ++
    "Conversation so far:\n" ++ conversation ++ "\n\n" ++
    participant.role ++ ":"

/-! ## Dialogue Engine: the turn loop (simulation.py lines 177-239) -/

/-- The `options` dict computed at simulation.py lines 192-196:
`{"num_predict": max_tokens} if max_tokens_per_message and
max_tokens_per_message > 0 else None`, represented by its only payload,
the `num_predict` value. -/
def replyOptions (maxTokens : Option Int) : Option Int :=
  match maxTokens with
  | none => none
  | some v => if v ≠ 0 ∧ 0 < v then some v else none

/-- The TypeError message produced when `generate` is called with the
unexpected keyword `options` (simulation.py line 197 against a client whose
`generate` lacks that parameter, such as `OllamaClient.generate`). -/
def optionsKwargTypeErrorMsg : String :=
  "generate got an unexpected keyword argument options"

/-- The TypeError message produced when `generate_summary` is called with
the unexpected keyword `max_tokens` (simulation.py line 217 against
`memory.generate_summary`, whose parameters are
`(messages, ollama_client)`). -/
def maxTokensKwargTypeErrorMsg : String :=
  "generate_summary got an unexpected keyword argument max_tokens"

/-- One participant's step of the inner loop (simulation.py lines 190-215):
build the prompt, call `generate`, and either append the reply or abort.

* The call `ollama_client.generate(prompt, options=options)` (line 197) is
  made *outside* the `try` block of lines 198-214: if the client's
  `generate` does not bind the `options` keyword, the resulting `TypeError`
  escapes `run_simulation` unwrapped.
* An exception raised by the capability inside the call is caught at line
  211 and re-raised as
  `SimulationError("Failed to generate a reply for role '<role>'.")`.
  (The capability is assumed to raise ordinary exceptions, not the
  engine-internal `SimulationError` or `CancelledError`, which lines
  207-210 would let through unchanged.)
* A hanging call is bounded by `_await_with_timeout` (lines 160-174): with
  a per-call timeout configured it raises
  `SimulationError("Timed out waiting for a reply from participant ...")`;
  without one it never returns. -/
def participantStep (req : SimulationRequest) (cap : GenCap)
    (maxTokens : Option Int) (genTimeout : Option ℚ)
    (transcript : List ChatMessage) (n : Nat)
    (participant : SimulationParticipant) :
    RunResult (List ChatMessage × Nat) :=
  let prompt := buildPrompt req transcript participant
  let options := replyOptions maxTokens
  if cap.acceptsOptions then
    match cap.call n prompt options with
    | .ok reply => .ok (transcript ++ [{ role := participant.role, content := reply }], n + 1)
    | .raise _ =>
        .error (.simulationError
          ("Failed to generate a reply for role \x27" ++ participant.role ++ "\x27."))
    | .hang =>
        match genTimeout with
        | some _ =>
            .error (.simulationError
              ("Timed out waiting for a reply from participant \x27" ++ participant.role ++
                "\x27. Check the Ollama service or network connectivity."))
        | none => .diverges
  else
    .error (.typeError optionsKwargTypeErrorMsg)

/-- The inner `for participant in request.participants` loop. -/
def runParticipants (req : SimulationRequest) (cap : GenCap)
    (maxTokens : Option Int) (genTimeout : Option ℚ) :
    List SimulationParticipant → List ChatMessage → Nat →
    RunResult (List ChatMessage × Nat)
  | [], transcript, n => .ok (transcript, n)
  | p :: rest, transcript, n =>
    match participantStep req cap maxTokens genTimeout transcript n p with
    | .ok (transcript2, n2) => runParticipants req cap maxTokens genTimeout rest transcript2 n2
    | .error e => .error e
    | .diverges => .diverges

/-- The outer `for _ in range(request.turns)` loop (simulation.py lines
189-215). -/
def runTurns (req : SimulationRequest) (cap : GenCap)
    (maxTokens : Option Int) (genTimeout : Option ℚ) :
    Nat → List ChatMessage → Nat → RunResult (List ChatMessage × Nat)
  | 0, transcript, n => .ok (transcript, n)
  | t + 1, transcript, n =>
    match runParticipants req cap maxTokens genTimeout req.participants transcript n with
    | .ok (transcript2, n2) => runTurns req cap maxTokens genTimeout t transcript2 n2
    | .error e => .error e
    | .diverges => .diverges

/-- The prompt that `memory.generate_summary` builds
(`backend/app/services/memory.py` lines 330-337). -/
def summaryPrompt (messages : List ChatMessage) : String :=
  String.intercalate "\n"
    ("Summarize the following conversation focusing on stable knowledge." ::
      messages.map (fun m => m.role ++ ": " ++ m.content))

/-- `generate_summary` from `backend/app/services/memory.py` lines 330-337.
Its parameters are `(messages, ollama_client)` — it accepts no token cap —
and its single generation call is `ollama_client.generate(prompt)`: no
`options` keyword is passed (so the call binds for every client), and no
token cap of any kind is forwarded (the third argument below, the
`num_predict` value the capability receives, is literally `none`).
`n` is the index this call would have in the capability's call order. -/
def generate_summary (messages : List ChatMessage) (cap : GenCap) (n : Nat) : GenOutcome :=
  cap.call n (summaryPrompt messages) none

/-- `run_simulation` (simulation.py lines 177-239).

The turn loop accumulates the transcript; afterwards line 217 calls
`generate_summary(transcript, ollama_client, max_tokens=max_tokens_per_message)`.
`memory.generate_summary` declares parameters `(messages, ollama_client)`
only, so binding the `max_tokens` keyword raises `TypeError` before the
summary coroutine exists.  That call stands *outside* the `try` of lines
222-236, so the `TypeError` escapes `run_simulation` unwrapped, whatever
the value of `max_tokens_per_message` (the keyword is passed even when the
value is `None`).  Consequently the success path of lines 238-239 (graph
construction and return) is unreachable. -/
def run_simulation (req : SimulationRequest) (cap : GenCap)
    (maxTokens : Option Int) (genTimeout : Option ℚ) :
    RunResult (List ChatMessage × String) :=
  match runTurns req cap maxTokens genTimeout req.turns [] 0 with
  | .ok (_, _) => .error (.typeError maxTokensKwargTypeErrorMsg)
  | .error e => .error e
  | .diverges => .diverges

/-! ## Job Registry / Coordinator (simulation.py lines 242-431)

The coordinator is embedded as a transition system.  Its state holds the
normalized configuration, the job map, and the event-loop clock.  Each
job record combines the fields of `_SimulationJobState` with the execution
point of the job's `_execute_job` task and whether cancellation of that
task has been requested — together these capture, up to the granularity
relevant to the claims, the asyncio runtime state of the task.

Scheduling model (spec section 5): single-threaded cooperative concurrency.
The coordinator's lock is never held across an await, so every critical
section is atomic from the point of view of other tasks; each lock-guarded
block of the source becomes one transition.  Cancellation is cooperative:
once requested it is delivered at the task's next suspension point, where
`run_simulation` re-raises it (simulation.py lines 207-208 and 231-232) —
external capabilities are assumed not to swallow `CancelledError` — so a
task with a pending cancellation request can only settle through the
`except asyncio.CancelledError` branch of `_execute_job` (or, if it never
began executing, by the `CancelledError` surfacing before its first
statement, ahead of the `try` at line 324, mutating nothing). -/

/-- Execution point of a job's `_execute_job` task. -/
inductive TaskPhase where
  /-- the task object exists but its coroutine has not yet run
  (before the lock-guarded block at simulation.py lines 320-322) -/
  | created
  /-- the task has set the job Running and is executing `run_simulation`
  inside the `try` of lines 324-336 -/
  | started
  /-- the coroutine has finished (normally or by exception) -/
  | settled
deriving DecidableEq, Repr

/-- One job's record: the fields of `_SimulationJobState` (simulation.py
lines 242-252) plus the runtime state of its task.  `taskPresent` is
`state.task is not None`; `phase` and `cancelRequested` describe the task
object itself. -/
structure JobRec where
  request : SimulationRequest
  status : SimulationJobStatus
  result : Option SimulationResponse
  error : Option String
  taskPresent : Bool
  startedAt : Option ℚ
  phase : TaskPhase
  cancelRequested : Bool
deriving DecidableEq, Repr

/-- The coordinator's configuration after `__init__` normalization:
the three optional budgets. -/
structure CoordConfig where
  timeoutSeconds : Option ℚ
  maxTokensPerMessage : Option Int
  generationTimeoutSeconds : Option ℚ
deriving DecidableEq, Repr

/-- `x if x and x > 0 else None` on an optional float
(simulation.py lines 279-281 and 287-291). -/
def normPosQ : Option ℚ → Option ℚ
  | none => none
  | some v => if v ≠ 0 ∧ 0 < v then some v else none

/-- `x if x and x > 0 else None` on an optional int
(simulation.py lines 282-286). -/
def normPosInt : Option Int → Option Int
  | none => none
  | some v => if v ≠ 0 ∧ 0 < v then some v else none

/-- `SimulationCoordinator.__init__` (simulation.py lines 258-291):
each budget is kept only when truthy and strictly positive. -/
def coordinatorInit (timeoutSeconds : Option ℚ) (maxTokensPerMessage : Option Int)
    (generationTimeoutSeconds : Option ℚ) : CoordConfig :=
  { timeoutSeconds := normPosQ timeoutSeconds,
    maxTokensPerMessage := normPosInt maxTokensPerMessage,
    generationTimeoutSeconds := normPosQ generationTimeoutSeconds }

/-- Global coordinator state: configuration, the job map `self._jobs`
(uuid keys modelled as consecutively allocated `Nat` identifiers), and the
event-loop clock `asyncio.get_running_loop().time()`. -/
@[ext]
structure Coord where
  cfg : CoordConfig
  nextId : Nat
  jobs : Nat → Option JobRec
  now : ℚ

/-- Update one entry of the job map. -/
def setJob (s : Coord) (j : Nat) (jr : JobRec) : Coord :=
  { s with jobs := fun k => if k = j then some jr else s.jobs k }

/-- The error message of the overall-timeout transition (simulation.py
lines 350-353 and 414-417). -/
def timeoutMessage (t : ℚ) : String :=
  "Simulation exceeded the maximum runtime of " ++ toString t ++ " seconds."

/-- `_apply_timeout_if_needed` (simulation.py lines 399-424): on a Running
job whose elapsed time strictly exceeds the configured budget, record the
Failed transition inline, and cancel the outstanding task (a task already
done is merely dropped from the record). -/
def timeoutFire (t : ℚ) (jr : JobRec) : JobRec :=
  let jr1 : JobRec :=
    { jr with status := .failed, error := some (timeoutMessage t), startedAt := none }
  if jr1.taskPresent ∧ jr1.phase ≠ TaskPhase.settled then
    { jr1 with cancelRequested := true }
  else if jr1.taskPresent ∧ jr1.phase = TaskPhase.settled then
    { jr1 with taskPresent := false }
  else jr1

/-- The guard of `_apply_timeout_if_needed`: the early `return` of
simulation.py lines 402-411 (no budget configured, job not Running, no
start time recorded, or elapsed time within the budget) leaves the record
untouched; otherwise `timeoutFire` applies the mutation of lines
413-424. -/
def applyTimeoutIfNeeded (cfg : CoordConfig) (now : ℚ) (jr : JobRec) : JobRec :=
  match cfg.timeoutSeconds, jr.startedAt with
  | none, _ => jr
  | some _, none => jr
  | some t, some t0 =>
    if jr.status ≠ SimulationJobStatus.running then jr
    else if now - t0 ≤ t then jr
    else timeoutFire t jr

/-- `_snapshot_job` (simulation.py lines 388-397). -/
def snapshotJob (j : Nat) (jr : JobRec) : SimulationJob :=
  { jobId := j, status := jr.status, result := jr.result, error := jr.error }

/-- `get_job` (simulation.py lines 305-313): unknown identifiers raise
`KeyError(job_id)` (embedded as `Except.error j`) and leave the state
untouched; otherwise the lazy timeout check runs and a snapshot of the
(possibly just-failed) job is returned. -/
def getJob (s : Coord) (j : Nat) : Coord × Except Nat SimulationJob :=
  match s.jobs j with
  | none => (s, .error j)
  | some jr =>
    let jr2 := applyTimeoutIfNeeded s.cfg s.now jr
    (setJob s j jr2, .ok (snapshotJob j jr2))

/-- The freshly registered job record of `start_simulation`
(simulation.py line 299): Pending, no result, no error, task just
created. -/
def newJobRec (req : SimulationRequest) : JobRec :=
  { request := req, status := .pending, result := none, error := none,
    taskPresent := true, startedAt := none, phase := .created, cancelRequested := false }

/-- `start_simulation` (simulation.py lines 293-303): allocate a fresh
identifier, register a Pending job state, create the task, and return
`await self.get_job(job_id)`.  No suspension point between task creation
and the snapshot yields to the scheduler (the coordinator lock is free),
so the new task has not run when the snapshot is taken. -/
def startSimulation (s : Coord) (req : SimulationRequest) : Coord × SimulationJob :=
  let jobId := s.nextId
  let jr : JobRec := newJobRec req
  let s1 : Coord :=
    { s with nextId := s.nextId + 1,
             jobs := fun k => if k = jobId then some jr else s.jobs k }
  match getJob s1 jobId with
  | (s2, .ok snap) => (s2, snap)
  | (s2, .error _) =>
    -- unreachable: the identifier was registered in `s1` just above
    (s2, { jobId := jobId, status := .pending, result := none, error := none })

/-- `shutdown` (simulation.py lines 374-386): request cancellation of every
job's task that is present and not yet done (the suppressed `await task`
does not itself mutate coordinator state; the cancelled tasks settle
through their own transitions). -/
def shutdownOp (s : Coord) : Coord :=
  { s with jobs := fun k =>
      match s.jobs k with
      | none => none
      | some jr =>
        some (if jr.taskPresent ∧ jr.phase ≠ TaskPhase.settled then
                { jr with cancelRequested := true }
              else jr) }

/-- The `except asyncio.CancelledError` branch of `_execute_job`
(simulation.py lines 337-345): mark Failed only if still observed Running,
fill a generic cancellation message only if no error was recorded, then
drop the task handle and start time. -/
def cancelledBranch (jr : JobRec) : JobRec :=
  let jr1 :=
    if jr.status = SimulationJobStatus.running then
      { jr with status := .failed,
                error := match jr.error with
                         | none => some "Simulation was cancelled."
                         | some e => some e }
    else jr
  { jr1 with taskPresent := false, startedAt := none, phase := .settled }

/-- One transition of the coordinator system.  `submit`, `poll`, `shutdown`
are the caller-facing operations; `tick` advances the event-loop clock;
the remaining transitions are the atomic (lock-guarded) sections of a
job's `_execute_job` task:

* `beginRun`: lines 320-322 — the task's first step, entering Running
  (only a task whose cancellation has not been requested gets this far);
* `beginCancelled`: a task cancelled before its first step settles without
  executing anything — the `CancelledError` surfaces ahead of the `try` at
  line 324, so no branch of `_execute_job` runs and the job record is
  untouched;
* `settleSuccess`: lines 367-372 — `run_simulation` returned a value;
* `settleFailure`: lines 359-365 — `run_simulation` raised an exception
  with message `msg` (`state.error = str(exc)`);
* `settleTimeout`: lines 346-358 — the `asyncio.wait_for` wrapper raised
  `TimeoutError`, possible only when an overall budget is configured
  (lines 331-334);
* `settleCancelled`: lines 337-345 — the pending cancellation was
  delivered at a suspension point and propagated out of `run_simulation`.

A task whose cancellation has been requested settles only through the
cancellation branches (see the module comment above), hence the
`cancelRequested = false` side conditions on the other settle
transitions. -/
inductive Step : Coord → Coord → Prop where
  | submit (s : Coord) (req : SimulationRequest) :
      Step s (startSimulation s req).1
  | poll (s : Coord) (j : Nat) :
      Step s (getJob s j).1
  | shutdown (s : Coord) :
      Step s (shutdownOp s)
  | tick (s : Coord) (d : ℚ) (hd : 0 ≤ d) :
      Step s { s with now := s.now + d }
  | beginRun (s : Coord) (j : Nat) (jr : JobRec)
      (hj : s.jobs j = some jr) (hph : jr.phase = .created)
      (hnc : jr.cancelRequested = false) :
      Step s (setJob s j
        { jr with status := .running, startedAt := some s.now, phase := .started })
  | beginCancelled (s : Coord) (j : Nat) (jr : JobRec)
      (hj : s.jobs j = some jr) (hph : jr.phase = .created)
      (hc : jr.cancelRequested = true) :
      Step s (setJob s j { jr with phase := .settled })
  | settleSuccess (s : Coord) (j : Nat) (jr : JobRec) (res : SimulationResponse)
      (hj : s.jobs j = some jr) (hph : jr.phase = .started)
      (hnc : jr.cancelRequested = false) :
      Step s (setJob s j
        { jr with status := .completed, result := some res,
                  taskPresent := false, startedAt := none, phase := .settled })
  | settleFailure (s : Coord) (j : Nat) (jr : JobRec) (msg : String)
      (hj : s.jobs j = some jr) (hph : jr.phase = .started)
      (hnc : jr.cancelRequested = false) :
      Step s (setJob s j
        { jr with status := .failed, error := some msg,
                  taskPresent := false, startedAt := none, phase := .settled })
  | settleTimeout (s : Coord) (j : Nat) (jr : JobRec) (t : ℚ)
      (hj : s.jobs j = some jr) (hph : jr.phase = .started)
      (hnc : jr.cancelRequested = false)
      (ht : s.cfg.timeoutSeconds = some t) :
      Step s (setJob s j
        { jr with status := .failed, error := some (timeoutMessage t),
                  taskPresent := false, startedAt := none, phase := .settled })
  | settleCancelled (s : Coord) (j : Nat) (jr : JobRec)
      (hj : s.jobs j = some jr) (hph : jr.phase = .started)
      (hc : jr.cancelRequested = true) :
      Step s (setJob s j (cancelledBranch jr))

/-- The coordinator's initial state: empty job map, clock at zero. -/
def initCoord (cfg : CoordConfig) : Coord :=
  { cfg := cfg, nextId := 0, jobs := fun _ => none, now := 0 }

/-- States reachable from a fresh coordinator by any interleaving of
operations and task steps. -/
def Reachable (cfg : CoordConfig) (s : Coord) : Prop :=
  Relation.ReflTransGen Step (initCoord cfg) s

/-- The coordinator state right after `submit` registers the fresh job. -/
def submitState (s : Coord) (req : SimulationRequest) : Coord :=
  { s with nextId := s.nextId + 1,
           jobs := fun k => if k = s.nextId then some (newJobRec req) else s.jobs k }

/-! ## Concrete scenarios

Concrete requests, capabilities, and coordinator traces used to evaluate
the embedded code on specific inputs (the spec's own test scenarios among
them). -/

/-- The spec's scenario request: `turns=2`, participants
`[Engineer, Strategist]`. -/
def specScenarioReq : SimulationRequest :=
  { turns := 2, context := none,
    participants := [{ role := "Engineer", persona := none },
                     { role := "Strategist", persona := none }] }

/-- A one-turn request with the same two participants. -/
def demoReq : SimulationRequest :=
  { turns := 1, context := none,
    participants := [{ role := "Engineer", persona := none },
                     { role := "Strategist", persona := none }] }

/-- The spec's stub capability returning `response-1`, `response-2`, … in
call order — read charitably as declaring an `options` parameter so that
the engine's `generate(prompt, options=...)` call at least binds (the
repository's own `DummyOllamaClient.generate(self, prompt)` does not). -/
def seqCap : GenCap :=
  { acceptsOptions := true,
    call := fun n _ _ => .ok ("response-" ++ toString (n + 1)) }

/-- The repository test suite's `FailingOllamaClient`: `generate(self,
prompt)` (no `options` parameter) raising `RuntimeError("ollama
unavailable")` on every call. -/
def failingCap : GenCap :=
  { acceptsOptions := false,
    call := fun _ _ _ => .raise "ollama unavailable" }

/-- A capability that does declare an `options` parameter but raises
`RuntimeError("ollama unavailable")` on every call — the
signature-compliant variant of `failingCap`. -/
def raisingCap : GenCap :=
  { acceptsOptions := true,
    call := fun _ _ _ => .raise "ollama unavailable" }

/-- A compliant capability that succeeds exactly when it receives the
`num_predict` value 50, used to observe which calls the configured token
cap is forwarded to. -/
def optCheckCap : GenCap :=
  { acceptsOptions := true,
    call := fun n _ o => if o = some (50 : Int) then .ok ("r" ++ toString n) else .raise "wrong options" }

/-- Substring test (specification-side helper for stating that an error
message does or does not mention a role). -/
def containsSubstr (hay needle : String) : Bool :=
  (List.range (hay.length + 1)).any fun i => needle.toList.isPrefixOf (hay.toList.drop i)

/-- An unconfigured coordinator (`SimulationCoordinator()`). -/
def demoCfg : CoordConfig := coordinatorInit none none none

/-- A coordinator with a one-second overall budget
(`SimulationCoordinator(timeout_seconds=1)`). -/
def demoTCfg : CoordConfig := coordinatorInit (some 1) none none

/-- Trace A (unconfigured coordinator): submit `demoReq`. -/
def sA1 : Coord := (startSimulation (initCoord demoCfg) demoReq).1

/-- Trace A: the fresh job's record. -/
def jrA1 : JobRec := newJobRec demoReq

/-- Trace A: the job's task begins running. -/
def jrA2 : JobRec :=
  { jrA1 with status := SimulationJobStatus.running, startedAt := some sA1.now,
              phase := TaskPhase.started }

def sA2 : Coord := setJob sA1 0 jrA2

/-- Trace A: the task settles with an exception whose message is `boom`. -/
def jrA3 : JobRec :=
  { jrA2 with status := SimulationJobStatus.failed, error := some "boom",
              taskPresent := false, startedAt := none, phase := TaskPhase.settled }

def sA3 : Coord := setJob sA2 0 jrA3

/-- Trace B (coordinator with a one-second budget): submit, task begins,
then two seconds pass. -/
def sB1 : Coord := (startSimulation (initCoord demoTCfg) demoReq).1

def jrB2 : JobRec :=
  { newJobRec demoReq with status := SimulationJobStatus.running,
                           startedAt := some sB1.now, phase := TaskPhase.started }

def sB2 : Coord := setJob sB1 0 jrB2

def sB3 : Coord := { sB2 with now := sB2.now + 2 }

/-- Trace C (unconfigured coordinator): submit, then `shutdown` before the
job's task ever runs, then the cancelled task settles without executing —
the job stays Pending forever. -/
def sC1 : Coord := (startSimulation (initCoord demoCfg) demoReq).1

def jrC2 : JobRec := { newJobRec demoReq with cancelRequested := true }

def sC2 : Coord := shutdownOp sC1

def sC3 : Coord := setJob sC2 0 { jrC2 with phase := TaskPhase.settled }

/-! ## Characterization lemmas for the operations -/

theorem setJob_jobs (s : Coord) (j : Nat) (jr : JobRec) (k : Nat) :
    (setJob s j jr).jobs k = if k = j then some jr else s.jobs k := rfl

theorem setJob_cfg (s : Coord) (j : Nat) (jr : JobRec) : (setJob s j jr).cfg = s.cfg := rfl

theorem setJob_nextId (s : Coord) (j : Nat) (jr : JobRec) :
    (setJob s j jr).nextId = s.nextId := rfl

theorem setJob_now (s : Coord) (j : Nat) (jr : JobRec) : (setJob s j jr).now = s.now := rfl

theorem applyTimeout_not_running (cfg : CoordConfig) (now : ℚ) (jr : JobRec)
    (h : jr.status ≠ SimulationJobStatus.running) :
    applyTimeoutIfNeeded cfg now jr = jr := by
  unfold applyTimeoutIfNeeded
  split
  · rfl
  · rfl
  · simp [h]

theorem applyTimeout_startedAt_none (cfg : CoordConfig) (now : ℚ) (jr : JobRec)
    (h : jr.startedAt = none) :
    applyTimeoutIfNeeded cfg now jr = jr := by
  unfold applyTimeoutIfNeeded
  split
  · rfl
  · rfl
  · rename_i t t0 heq hst
    rw [h] at hst
    exact absurd hst (by simp)

theorem applyTimeout_no_budget (cfg : CoordConfig) (now : ℚ) (jr : JobRec)
    (h : cfg.timeoutSeconds = none) :
    applyTimeoutIfNeeded cfg now jr = jr := by
  unfold applyTimeoutIfNeeded
  split
  · rfl
  · rfl
  · rename_i t t0 heq hst
    rw [h] at heq
    exact absurd heq (by simp)

theorem applyTimeout_within (cfg : CoordConfig) (now : ℚ) (jr : JobRec) (t t0 : ℚ)
    (hcfg : cfg.timeoutSeconds = some t) (hst : jr.startedAt = some t0)
    (hle : now - t0 ≤ t) :
    applyTimeoutIfNeeded cfg now jr = jr := by
  unfold applyTimeoutIfNeeded
  split
  · rfl
  · rfl
  · rename_i t1 t01 heq hst1
    rw [hcfg] at heq
    rw [hst] at hst1
    cases heq
    cases hst1
    by_cases hrun : jr.status = SimulationJobStatus.running
    · simp [hrun, hle]
    · simp [hrun]

theorem applyTimeout_fires (cfg : CoordConfig) (now : ℚ) (jr : JobRec) (t t0 : ℚ)
    (hcfg : cfg.timeoutSeconds = some t) (hst : jr.startedAt = some t0)
    (hrun : jr.status = SimulationJobStatus.running) (hgt : ¬ now - t0 ≤ t) :
    applyTimeoutIfNeeded cfg now jr = timeoutFire t jr := by
  unfold applyTimeoutIfNeeded
  split
  · rename_i heq
    rw [hcfg] at heq
    exact absurd heq (by simp)
  · rename_i heq hst1
    rw [hst] at hst1
    exact absurd hst1 (by simp)
  · rename_i t1 t01 heq hst1
    rw [hcfg] at heq
    rw [hst] at hst1
    cases heq
    cases hst1
    simp [hrun, hgt]

theorem getJob_none (s : Coord) (j : Nat) (h : s.jobs j = none) :
    getJob s j = (s, Except.error j) := by
  unfold getJob
  rw [h]

theorem getJob_some (s : Coord) (j : Nat) (jr : JobRec) (h : s.jobs j = some jr) :
    getJob s j =
      (setJob s j (applyTimeoutIfNeeded s.cfg s.now jr),
       Except.ok (snapshotJob j (applyTimeoutIfNeeded s.cfg s.now jr))) := by
  unfold getJob
  rw [h]

theorem startSimulation_eq (s : Coord) (req : SimulationRequest) :
    startSimulation s req =
      (submitState s req,
       { jobId := s.nextId, status := .pending, result := none, error := none }) := by
  have h1 : (submitState s req).jobs s.nextId = some (newJobRec req) := by
    simp [submitState]
  have h2 : applyTimeoutIfNeeded (submitState s req).cfg (submitState s req).now (newJobRec req)
      = newJobRec req :=
    applyTimeout_startedAt_none _ _ _ rfl
  have h3 : setJob (submitState s req) s.nextId (newJobRec req) = submitState s req := by
    ext k
    · rfl
    · rfl
    · rename_i jr'
      show ((setJob (submitState s req) s.nextId (newJobRec req)).jobs k = some jr') ↔ _
      rw [setJob_jobs]
      by_cases hk : k = s.nextId
      · subst hk
        rw [h1]
        simp
      · simp [hk]
    · rfl
  have hmain : getJob (submitState s req) s.nextId =
      (submitState s req,
       Except.ok { jobId := s.nextId, status := .pending, result := none, error := none }) := by
    rw [getJob_some _ _ _ h1, h2, h3]
    rfl
  show (match getJob (submitState s req) s.nextId with
        | (s2, Except.ok snap) => (s2, snap)
        | (s2, Except.error _) =>
          (s2, { jobId := s.nextId, status := .pending, result := none, error := none })) = _
  rw [hmain]

theorem shutdownOp_jobs (s : Coord) (k : Nat) :
    (shutdownOp s).jobs k =
      match s.jobs k with
      | none => none
      | some jr =>
        some (if jr.taskPresent ∧ jr.phase ≠ TaskPhase.settled then
                { jr with cancelRequested := true }
              else jr) := rfl

/-! ## The reachable-state invariant

`JobInv` collects the per-job facts that hold in every reachable state and
that tie together the status enumeration, the payload fields, and the
task's runtime state.  They are exactly the facts needed to settle the
frozen claims about terminal immutability and payload consistency. -/

def JobInv (jr : JobRec) : Prop :=
  (jr.phase = TaskPhase.created →
    jr.status = SimulationJobStatus.pending ∧ jr.taskPresent = true ∧
    jr.startedAt = none ∧ jr.result = none ∧ jr.error = none) ∧
  (jr.status = SimulationJobStatus.pending →
    jr.result = none ∧ jr.error = none ∧ jr.startedAt = none ∧
    jr.phase ≠ TaskPhase.started) ∧
  (jr.status = SimulationJobStatus.running →
    jr.phase = TaskPhase.started ∧ jr.taskPresent = true ∧
    jr.startedAt ≠ none ∧ jr.result = none ∧ jr.error = none) ∧
  (jr.status = SimulationJobStatus.completed →
    jr.phase = TaskPhase.settled ∧ jr.result ≠ none ∧ jr.error = none) ∧
  (jr.status = SimulationJobStatus.failed →
    jr.error ≠ none ∧ jr.result = none) ∧
  (jr.status = SimulationJobStatus.failed → jr.phase = TaskPhase.started →
    jr.cancelRequested = true) ∧
  (jr.phase = TaskPhase.settled → jr.status ≠ SimulationJobStatus.running) ∧
  (jr.phase = TaskPhase.settled → jr.status = SimulationJobStatus.pending →
    jr.cancelRequested = true)

def CoordInv (s : Coord) : Prop :=
  (∀ j, s.nextId ≤ j → s.jobs j = none) ∧
  (∀ j jr, s.jobs j = some jr → JobInv jr)

theorem jobInv_newJobRec (req : SimulationRequest) : JobInv (newJobRec req) := by
  unfold JobInv newJobRec
  refine ⟨?_, ?_, ?_, ?_, ?_, ?_, ?_, ?_⟩ <;> simp

theorem jobInv_timeoutFire (t : ℚ) (jr : JobRec)
    (hrun : jr.status = SimulationJobStatus.running) (hinv : JobInv jr) :
    JobInv (timeoutFire t jr) := by
  obtain ⟨hcr, hpe, hru, hco, hfa, hfs, hse, hsp⟩ := hinv
  obtain ⟨hph, htp, _, hres, _⟩ := hru hrun
  unfold timeoutFire
  rw [if_pos]
  · unfold JobInv
    refine ⟨?_, ?_, ?_, ?_, ?_, ?_, ?_, ?_⟩ <;> simp [hph, htp, hres]
  · constructor
    · exact htp
    · rw [hph]; simp

theorem jobInv_applyTimeout (cfg : CoordConfig) (now : ℚ) (jr : JobRec)
    (hinv : JobInv jr) : JobInv (applyTimeoutIfNeeded cfg now jr) := by
  by_cases hrun : jr.status = SimulationJobStatus.running
  · match hcfg : cfg.timeoutSeconds with
    | none => rw [applyTimeout_no_budget _ _ _ hcfg]; exact hinv
    | some t =>
      match hst : jr.startedAt with
      | none => rw [applyTimeout_startedAt_none _ _ _ hst]; exact hinv
      | some t0 =>
        by_cases hle : now - t0 ≤ t
        · rw [applyTimeout_within _ _ _ _ _ hcfg hst hle]; exact hinv
        · rw [applyTimeout_fires _ _ _ _ _ hcfg hst hrun hle]
          exact jobInv_timeoutFire _ _ hrun hinv
  · rw [applyTimeout_not_running _ _ _ hrun]; exact hinv

theorem jobInv_cancelledBranch (jr : JobRec) (hinv : JobInv jr)
    (hph : jr.phase = TaskPhase.started) (_hc : jr.cancelRequested = true) :
    JobInv (cancelledBranch jr) := by
  obtain ⟨hcr, hpe, hru, hco, hfa, hfs, hse, hsp⟩ := hinv
  unfold cancelledBranch
  by_cases hrun : jr.status = SimulationJobStatus.running
  · obtain ⟨_, _, _, hres, herr⟩ := hru hrun
    rw [if_pos hrun]
    unfold JobInv
    refine ⟨?_, ?_, ?_, ?_, ?_, ?_, ?_, ?_⟩ <;> simp [hres, herr]
  · rw [if_neg hrun]
    match hstat : jr.status with
    | .pending =>
      exact absurd hph (hpe hstat).2.2.2
    | .running => exact absurd hstat hrun
    | .completed =>
      rw [hph] at hco
      exact absurd (hco hstat).1 (by simp)
    | .failed =>
      obtain ⟨herr, hres⟩ := hfa hstat
      unfold JobInv
      refine ⟨?_, ?_, ?_, ?_, ?_, ?_, ?_, ?_⟩ <;> simp [hstat, herr, hres]

/-- A task observed in the `started` phase with no pending cancellation
request belongs to a Running job: the other statuses are excluded by the
invariant (Pending and Completed are incompatible with the phase; a Failed
job whose task is still running was failed by the lazy timeout check,
which also requested cancellation). -/
theorem started_uncancelled_running (jr : JobRec) (hinv : JobInv jr)
    (hph : jr.phase = TaskPhase.started) (hnc : jr.cancelRequested = false) :
    jr.status = SimulationJobStatus.running := by
  obtain ⟨hcr, hpe, hru, hco, hfa, hfs, hse, hsp⟩ := hinv
  match hstat : jr.status with
  | .pending => exact absurd hph (hpe hstat).2.2.2
  | .running => rfl
  | .completed =>
    have h := (hco hstat).1
    rw [hph] at h
    exact absurd h (by simp)
  | .failed =>
    have h := hfs hstat hph
    rw [hnc] at h
    exact absurd h (by simp)

theorem jobInv_setCancel (jr : JobRec) (hinv : JobInv jr) :
    JobInv { jr with cancelRequested := true } := by
  obtain ⟨hcr, hpe, hru, hco, hfa, hfs, hse, hsp⟩ := hinv
  unfold JobInv
  refine ⟨?_, ?_, ?_, ?_, ?_, ?_, ?_, ?_⟩ <;>
    simp_all

theorem jobInv_beginRun (s : Coord) (jr : JobRec) (hinv : JobInv jr)
    (hph : jr.phase = TaskPhase.created) :
    JobInv { jr with status := SimulationJobStatus.running,
                     startedAt := some s.now, phase := TaskPhase.started } := by
  obtain ⟨hcr, hpe, hru, hco, hfa, hfs, hse, hsp⟩ := hinv
  obtain ⟨hstat, htp, hst, hres, herr⟩ := hcr hph
  unfold JobInv
  refine ⟨?_, ?_, ?_, ?_, ?_, ?_, ?_, ?_⟩ <;> simp [htp, hres, herr]

theorem jobInv_beginCancelled (jr : JobRec) (hinv : JobInv jr)
    (hph : jr.phase = TaskPhase.created) (hc : jr.cancelRequested = true) :
    JobInv { jr with phase := TaskPhase.settled } := by
  obtain ⟨hcr, hpe, hru, hco, hfa, hfs, hse, hsp⟩ := hinv
  obtain ⟨hstat, htp, hst, hres, herr⟩ := hcr hph
  unfold JobInv
  refine ⟨?_, ?_, ?_, ?_, ?_, ?_, ?_, ?_⟩ <;> simp [hstat, hst, hres, herr, hc]

theorem jobInv_settleSuccess (jr : JobRec) (res : SimulationResponse) (hinv : JobInv jr)
    (hph : jr.phase = TaskPhase.started) (hnc : jr.cancelRequested = false) :
    JobInv { jr with status := SimulationJobStatus.completed, result := some res,
                     taskPresent := false, startedAt := none,
                     phase := TaskPhase.settled } := by
  have hrun := started_uncancelled_running jr hinv hph hnc
  obtain ⟨hcr, hpe, hru, hco, hfa, hfs, hse, hsp⟩ := hinv
  obtain ⟨_, _, _, hres, herr⟩ := hru hrun
  unfold JobInv
  refine ⟨?_, ?_, ?_, ?_, ?_, ?_, ?_, ?_⟩ <;> simp [herr]

theorem jobInv_settleFailed (jr : JobRec) (msg : String) (hinv : JobInv jr)
    (hph : jr.phase = TaskPhase.started) (hnc : jr.cancelRequested = false) :
    JobInv { jr with status := SimulationJobStatus.failed, error := some msg,
                     taskPresent := false, startedAt := none,
                     phase := TaskPhase.settled } := by
  have hrun := started_uncancelled_running jr hinv hph hnc
  obtain ⟨hcr, hpe, hru, hco, hfa, hfs, hse, hsp⟩ := hinv
  obtain ⟨_, _, _, hres, herr⟩ := hru hrun
  unfold JobInv
  refine ⟨?_, ?_, ?_, ?_, ?_, ?_, ?_, ?_⟩ <;> simp [hres]

theorem coordInv_setJob (s : Coord) (j : Nat) (jrOld jrNew : JobRec)
    (hinv : CoordInv s) (hj : s.jobs j = some jrOld) (hnew : JobInv jrNew) :
    CoordInv (setJob s j jrNew) := by
  obtain ⟨hfresh, hjobs⟩ := hinv
  constructor
  · intro k hk
    rw [setJob_nextId] at hk
    rw [setJob_jobs]
    have hkj : k ≠ j := by
      intro hkj
      subst hkj
      rw [hfresh k hk] at hj
      exact Option.noConfusion hj
    rw [if_neg hkj]
    exact hfresh k hk
  · intro k jr hkjr
    rw [setJob_jobs] at hkjr
    by_cases hkj : k = j
    · rw [if_pos hkj] at hkjr
      cases hkjr
      exact hnew
    · rw [if_neg hkj] at hkjr
      exact hjobs k jr hkjr

/-- Every coordinator transition preserves the invariant. -/
theorem coordInv_step {s s' : Coord} (hinv : CoordInv s) (hstep : Step s s') :
    CoordInv s' := by
  obtain ⟨hfresh, hjobs⟩ := hinv
  cases hstep with
  | submit req =>
    rw [startSimulation_eq]
    constructor
    · intro k hk
      have hk1 : s.nextId + 1 ≤ k := hk
      have hkne : k ≠ s.nextId := by omega
      show (if k = s.nextId then some (newJobRec req) else s.jobs k) = none
      rw [if_neg hkne]
      exact hfresh k (by omega)
    · intro k jr hkjr
      change (if k = s.nextId then some (newJobRec req) else s.jobs k) = some jr at hkjr
      by_cases hkj : k = s.nextId
      · rw [if_pos hkj] at hkjr
        cases hkjr
        exact jobInv_newJobRec req
      · rw [if_neg hkj] at hkjr
        exact hjobs k jr hkjr
  | poll j =>
    match hj : s.jobs j with
    | none =>
      rw [getJob_none _ _ hj]
      exact ⟨hfresh, hjobs⟩
    | some jr =>
      rw [getJob_some _ _ _ hj]
      exact coordInv_setJob s j jr _ ⟨hfresh, hjobs⟩ hj
        (jobInv_applyTimeout _ _ _ (hjobs j jr hj))
  | shutdown =>
    constructor
    · intro k hk
      rw [shutdownOp_jobs]
      have : s.jobs k = none := hfresh k hk
      rw [this]
    · intro k jr hkjr
      rw [shutdownOp_jobs] at hkjr
      match hj : s.jobs k with
      | none => rw [hj] at hkjr; exact Option.noConfusion hkjr
      | some jr0 =>
        rw [hj] at hkjr
        have hkjr2 : (if jr0.taskPresent ∧ jr0.phase ≠ TaskPhase.settled then
            { jr0 with cancelRequested := true } else jr0) = jr := by
          exact Option.some.inj hkjr
        by_cases hcond : jr0.taskPresent ∧ jr0.phase ≠ TaskPhase.settled
        · rw [if_pos hcond] at hkjr2
          rw [← hkjr2]
          exact jobInv_setCancel jr0 (hjobs k jr0 hj)
        · rw [if_neg hcond] at hkjr2
          rw [← hkjr2]
          exact hjobs k jr0 hj
  | tick d hd =>
    exact ⟨hfresh, hjobs⟩
  | beginRun j jr hj hph hnc =>
    exact coordInv_setJob s j jr _ ⟨hfresh, hjobs⟩ hj
      (jobInv_beginRun s jr (hjobs j jr hj) hph)
  | beginCancelled j jr hj hph hc =>
    exact coordInv_setJob s j jr _ ⟨hfresh, hjobs⟩ hj
      (jobInv_beginCancelled jr (hjobs j jr hj) hph hc)
  | settleSuccess j jr res hj hph hnc =>
    exact coordInv_setJob s j jr _ ⟨hfresh, hjobs⟩ hj
      (jobInv_settleSuccess jr res (hjobs j jr hj) hph hnc)
  | settleFailure j jr msg hj hph hnc =>
    exact coordInv_setJob s j jr _ ⟨hfresh, hjobs⟩ hj
      (jobInv_settleFailed jr msg (hjobs j jr hj) hph hnc)
  | settleTimeout j jr t hj hph hnc ht =>
    exact coordInv_setJob s j jr _ ⟨hfresh, hjobs⟩ hj
      (jobInv_settleFailed jr (timeoutMessage t) (hjobs j jr hj) hph hnc)
  | settleCancelled j jr hj hph hc =>
    exact coordInv_setJob s j jr _ ⟨hfresh, hjobs⟩ hj
      (jobInv_cancelledBranch jr (hjobs j jr hj) hph hc)

theorem coordInv_init (cfg : CoordConfig) : CoordInv (initCoord cfg) := by
  constructor
  · intro k hk; rfl
  · intro k jr hkjr; exact Option.noConfusion hkjr

/-- The invariant holds in every reachable state. -/
theorem coordInv_reachable {cfg : CoordConfig} {s : Coord} (h : Reachable cfg s) :
    CoordInv s := by
  induction h with
  | refl => exact coordInv_init cfg
  | tail hsteps hstep ih => exact coordInv_step ih hstep

theorem setJob_jobs_self (s : Coord) (j : Nat) (jr : JobRec) :
    (setJob s j jr).jobs j = some jr := by
  rw [setJob_jobs, if_pos rfl]

theorem setJob_jobs_ne (s : Coord) {j k : Nat} (h : j ≠ k) (jr : JobRec) :
    (setJob s k jr).jobs j = s.jobs j := by
  rw [setJob_jobs, if_neg h]

/-- No transition ever removes a job from the map (`self._jobs` only
grows; jobs are never deleted). -/
theorem jobs_some_mono {s s' : Coord} (hstep : Step s s') {j : Nat} {jr : JobRec}
    (hj : s.jobs j = some jr) : ∃ jr', s'.jobs j = some jr' := by
  cases hstep with
  | submit req =>
    rw [startSimulation_eq]
    by_cases hjn : j = s.nextId
    · exact ⟨newJobRec req, by simp [submitState, hjn]⟩
    · exact ⟨jr, by simp [submitState, hjn, hj]⟩
  | poll k =>
    match hk : s.jobs k with
    | none => rw [getJob_none _ _ hk]; exact ⟨jr, hj⟩
    | some jrk =>
      rw [getJob_some _ _ _ hk]
      by_cases hjk : j = k
      · subst hjk
        exact ⟨_, setJob_jobs_self _ _ _⟩
      · exact ⟨jr, by rw [setJob_jobs_ne _ hjk, hj]⟩
  | shutdown =>
    rw [shutdownOp_jobs, hj]
    exact ⟨_, rfl⟩
  | tick d hd => exact ⟨jr, hj⟩
  | beginRun k jrk hjk hph hnc =>
    by_cases hjk2 : j = k
    · subst hjk2; exact ⟨_, setJob_jobs_self _ _ _⟩
    · exact ⟨jr, by rw [setJob_jobs_ne _ hjk2, hj]⟩
  | beginCancelled k jrk hjk hph hc =>
    by_cases hjk2 : j = k
    · subst hjk2; exact ⟨_, setJob_jobs_self _ _ _⟩
    · exact ⟨jr, by rw [setJob_jobs_ne _ hjk2, hj]⟩
  | settleSuccess k jrk res hjk hph hnc =>
    by_cases hjk2 : j = k
    · subst hjk2; exact ⟨_, setJob_jobs_self _ _ _⟩
    · exact ⟨jr, by rw [setJob_jobs_ne _ hjk2, hj]⟩
  | settleFailure k jrk msg hjk hph hnc =>
    by_cases hjk2 : j = k
    · subst hjk2; exact ⟨_, setJob_jobs_self _ _ _⟩
    · exact ⟨jr, by rw [setJob_jobs_ne _ hjk2, hj]⟩
  | settleTimeout k jrk t hjk hph hnc ht =>
    by_cases hjk2 : j = k
    · subst hjk2; exact ⟨_, setJob_jobs_self _ _ _⟩
    · exact ⟨jr, by rw [setJob_jobs_ne _ hjk2, hj]⟩
  | settleCancelled k jrk hjk hph hc =>
    by_cases hjk2 : j = k
    · subst hjk2; exact ⟨_, setJob_jobs_self _ _ _⟩
    · exact ⟨jr, by rw [setJob_jobs_ne _ hjk2, hj]⟩

theorem jobs_some_star {s s' : Coord} (hsteps : Relation.ReflTransGen Step s s')
    {j : Nat} {jr : JobRec} (hj : s.jobs j = some jr) :
    ∃ jr', s'.jobs j = some jr' := by
  induction hsteps with
  | refl => exact ⟨jr, hj⟩
  | tail hpre hstep ih =>
    obtain ⟨jrb, hjb⟩ := ih
    exact jobs_some_mono hstep hjb

/-- One transition never changes the status, result, or error of a job
already observed Completed or Failed. -/
theorem terminal_frozen_step {s s' : Coord} (hinv : CoordInv s) (hstep : Step s s')
    {j : Nat} {jr : JobRec} (hj : s.jobs j = some jr)
    (hterm : jr.status = SimulationJobStatus.completed ∨
      jr.status = SimulationJobStatus.failed) :
    ∃ jr', s'.jobs j = some jr' ∧ jr'.status = jr.status ∧ jr'.result = jr.result ∧
      jr'.error = jr.error := by
  obtain ⟨hfresh, hjobs⟩ := hinv
  have hnotrun : jr.status ≠ SimulationJobStatus.running := by
    rcases hterm with h | h <;> rw [h] <;> simp
  have hnotpend : jr.status ≠ SimulationJobStatus.pending := by
    rcases hterm with h | h <;> rw [h] <;> simp
  cases hstep with
  | submit req =>
    rw [startSimulation_eq]
    have hjne : j ≠ s.nextId := by
      intro hEq
      rw [hfresh j (le_of_eq hEq.symm)] at hj
      exact Option.noConfusion hj
    refine ⟨jr, ?_, rfl, rfl, rfl⟩
    show (if j = s.nextId then some (newJobRec req) else s.jobs j) = some jr
    rw [if_neg hjne]
    exact hj
  | poll k =>
    match hk : s.jobs k with
    | none =>
      rw [getJob_none _ _ hk]
      exact ⟨jr, hj, rfl, rfl, rfl⟩
    | some jrk =>
      rw [getJob_some _ _ _ hk]
      by_cases hjk : j = k
      · subst hjk
        rw [hj] at hk
        cases Option.some.inj hk
        rw [applyTimeout_not_running _ _ _ hnotrun]
        exact ⟨jr, setJob_jobs_self _ _ _, rfl, rfl, rfl⟩
      · exact ⟨jr, by rw [setJob_jobs_ne _ hjk, hj], rfl, rfl, rfl⟩
  | shutdown =>
    by_cases hcond : jr.taskPresent ∧ jr.phase ≠ TaskPhase.settled
    · refine ⟨{ jr with cancelRequested := true }, ?_, rfl, rfl, rfl⟩
      rw [shutdownOp_jobs, hj]
      simp only [if_pos hcond]
    · refine ⟨jr, ?_, rfl, rfl, rfl⟩
      rw [shutdownOp_jobs, hj]
      simp only [if_neg hcond]
  | tick d hd => exact ⟨jr, hj, rfl, rfl, rfl⟩
  | beginRun k jrk hjk hph hnc =>
    by_cases hjk2 : j = k
    · subst hjk2
      rw [hj] at hjk
      cases Option.some.inj hjk
      exact absurd ((hjobs j jr hj).1 hph).1 hnotpend
    · exact ⟨jr, by rw [setJob_jobs_ne _ hjk2, hj], rfl, rfl, rfl⟩
  | beginCancelled k jrk hjk hph hc =>
    by_cases hjk2 : j = k
    · subst hjk2
      rw [hj] at hjk
      cases Option.some.inj hjk
      exact ⟨{ jr with phase := TaskPhase.settled }, setJob_jobs_self _ _ _, rfl, rfl, rfl⟩
    · exact ⟨jr, by rw [setJob_jobs_ne _ hjk2, hj], rfl, rfl, rfl⟩
  | settleSuccess k jrk res hjk hph hnc =>
    by_cases hjk2 : j = k
    · subst hjk2
      rw [hj] at hjk
      cases Option.some.inj hjk
      exact absurd (started_uncancelled_running jr (hjobs j jr hj) hph hnc) hnotrun
    · exact ⟨jr, by rw [setJob_jobs_ne _ hjk2, hj], rfl, rfl, rfl⟩
  | settleFailure k jrk msg hjk hph hnc =>
    by_cases hjk2 : j = k
    · subst hjk2
      rw [hj] at hjk
      cases Option.some.inj hjk
      exact absurd (started_uncancelled_running jr (hjobs j jr hj) hph hnc) hnotrun
    · exact ⟨jr, by rw [setJob_jobs_ne _ hjk2, hj], rfl, rfl, rfl⟩
  | settleTimeout k jrk t hjk hph hnc ht =>
    by_cases hjk2 : j = k
    · subst hjk2
      rw [hj] at hjk
      cases Option.some.inj hjk
      exact absurd (started_uncancelled_running jr (hjobs j jr hj) hph hnc) hnotrun
    · exact ⟨jr, by rw [setJob_jobs_ne _ hjk2, hj], rfl, rfl, rfl⟩
  | settleCancelled k jrk hjk hph hc =>
    by_cases hjk2 : j = k
    · subst hjk2
      rw [hj] at hjk
      cases Option.some.inj hjk
      have hnotrun2 : ¬ jr.status = SimulationJobStatus.running := hnotrun
      refine ⟨cancelledBranch jr, setJob_jobs_self _ _ _, ?_, ?_, ?_⟩ <;>
        simp [cancelledBranch, hnotrun2]
    · exact ⟨jr, by rw [setJob_jobs_ne _ hjk2, hj], rfl, rfl, rfl⟩

/-- Terminal freeze along any sequence of transitions. -/
theorem terminal_frozen_star {cfg : CoordConfig} {s s' : Coord}
    (hreach : Reachable cfg s) (hsteps : Relation.ReflTransGen Step s s')
    {j : Nat} {jr : JobRec} (hj : s.jobs j = some jr)
    (hterm : jr.status = SimulationJobStatus.completed ∨
      jr.status = SimulationJobStatus.failed) :
    ∃ jr', s'.jobs j = some jr' ∧ jr'.status = jr.status ∧ jr'.result = jr.result ∧
      jr'.error = jr.error := by
  induction hsteps with
  | refl => exact ⟨jr, hj, rfl, rfl, rfl⟩
  | tail hpre hstep ih =>
    obtain ⟨jrb, hjb, h1, h2, h3⟩ := ih
    have hreachb : Reachable cfg _ := Relation.ReflTransGen.trans hreach hpre
    have htermb : jrb.status = SimulationJobStatus.completed ∨
        jrb.status = SimulationJobStatus.failed := by rw [h1]; exact hterm
    obtain ⟨jrc, hjc, g1, g2, g3⟩ :=
      terminal_frozen_step (coordInv_reachable hreachb) hstep hjb htermb
    exact ⟨jrc, hjc, by rw [g1, h1], by rw [g2, h2], by rw [g3, h3]⟩

/-! ## Reachability of the concrete traces -/

theorem reach_sA1 : Reachable demoCfg sA1 :=
  Relation.ReflTransGen.tail Relation.ReflTransGen.refl
    (Step.submit (initCoord demoCfg) demoReq)

theorem reach_sA2 : Reachable demoCfg sA2 :=
  Relation.ReflTransGen.tail reach_sA1 (Step.beginRun sA1 0 jrA1 rfl rfl rfl)

theorem reach_sA3 : Reachable demoCfg sA3 :=
  Relation.ReflTransGen.tail reach_sA2 (Step.settleFailure sA2 0 jrA2 "boom" rfl rfl rfl)

theorem reach_sB1 : Reachable demoTCfg sB1 :=
  Relation.ReflTransGen.tail Relation.ReflTransGen.refl
    (Step.submit (initCoord demoTCfg) demoReq)

theorem reach_sB2 : Reachable demoTCfg sB2 :=
  Relation.ReflTransGen.tail reach_sB1 (Step.beginRun sB1 0 (newJobRec demoReq) rfl rfl rfl)

theorem reach_sB3 : Reachable demoTCfg sB3 :=
  Relation.ReflTransGen.tail reach_sB2 (Step.tick sB2 2 (by norm_num))

theorem reach_sC1 : Reachable demoCfg sC1 :=
  Relation.ReflTransGen.tail Relation.ReflTransGen.refl
    (Step.submit (initCoord demoCfg) demoReq)

theorem reach_sC2 : Reachable demoCfg sC2 :=
  Relation.ReflTransGen.tail reach_sC1 (Step.shutdown sC1)

theorem reach_sC3 : Reachable demoCfg sC3 :=
  Relation.ReflTransGen.tail reach_sC2 (Step.beginCancelled sC2 0 jrC2 rfl rfl rfl)

/-! ## The claims -/

/-- Claim C1: for every job and every sequence of coordinator transitions,
once the job's status is Completed or Failed it never changes again: every
later state carries the same terminal status, the same result, and the
same error, and `get_job` returns exactly that snapshot.  In particular a
cancellation or timeout transition mutates only a job observed Running at
the moment of mutation (`_execute_job`'s cancellation branch re-checks
`state.status is RUNNING`; `_apply_timeout_if_needed` returns early unless
Running), so a job that recorded Completed is never overwritten to
Failed. -/
theorem terminal_status_immutable (cfg : CoordConfig) (s s' : Coord) (j : Nat)
    (jr : JobRec) (hreach : Reachable cfg s)
    (hsteps : Relation.ReflTransGen Step s s') (hj : s.jobs j = some jr)
    (hterm : jr.status = SimulationJobStatus.completed ∨
      jr.status = SimulationJobStatus.failed) :
    ∃ jr', s'.jobs j = some jr' ∧ jr'.status = jr.status ∧ jr'.result = jr.result ∧
      jr'.error = jr.error ∧
      (getJob s' j).2 =
        Except.ok { jobId := j, status := jr.status, result := jr.result,
                    error := jr.error } := by
  obtain ⟨jr', hj', h1, h2, h3⟩ := terminal_frozen_star hreach hsteps hj hterm
  have hnotrun : jr'.status ≠ SimulationJobStatus.running := by
    rw [h1]
    rcases hterm with h | h <;> rw [h] <;> simp
  refine ⟨jr', hj', h1, h2, h3, ?_⟩
  rw [getJob_some _ _ _ hj', applyTimeout_not_running _ _ _ hnotrun]
  show Except.ok (snapshotJob j jr') = _
  unfold snapshotJob
  rw [h1, h2, h3]

/-- Witness for C1: the concrete trace submit → task starts → task fails
with message `boom`; the terminal state is frozen (here along the empty
continuation) and polled back verbatim. -/
theorem terminal_status_immutable_witness :
    ∃ jr', sA3.jobs 0 = some jr' ∧ jr'.status = jrA3.status ∧
      jr'.result = jrA3.result ∧ jr'.error = jrA3.error ∧
      (getJob sA3 0).2 =
        Except.ok { jobId := 0, status := jrA3.status, result := jrA3.result,
                    error := jrA3.error } :=
  terminal_status_immutable demoCfg sA3 sA3 0 jrA3 reach_sA3
    Relation.ReflTransGen.refl rfl (Or.inr rfl)

/-- Claim C8: in every reachable state, a job's result is non-empty only
when its status is Completed, its error is non-empty only when its status
is Failed, and no job ever carries both a result and an error. -/
theorem result_iff_completed_error_iff_failed (cfg : CoordConfig) (s : Coord)
    (j : Nat) (jr : JobRec) (hreach : Reachable cfg s) (hj : s.jobs j = some jr) :
    (jr.result ≠ none → jr.status = SimulationJobStatus.completed) ∧
    (jr.error ≠ none → jr.status = SimulationJobStatus.failed) ∧
    ¬ (jr.result ≠ none ∧ jr.error ≠ none) := by
  have hinv := (coordInv_reachable hreach).2 j jr hj
  obtain ⟨hcr, hpe, hru, hco, hfa, hfs, hse, hsp⟩ := hinv
  match hstat : jr.status with
  | SimulationJobStatus.pending =>
    obtain ⟨hres, herr, _, _⟩ := hpe hstat
    exact ⟨fun h => absurd hres h, fun h => absurd herr h, fun h => absurd hres h.1⟩
  | SimulationJobStatus.running =>
    obtain ⟨_, _, _, hres, herr⟩ := hru hstat
    exact ⟨fun h => absurd hres h, fun h => absurd herr h, fun h => absurd hres h.1⟩
  | SimulationJobStatus.completed =>
    obtain ⟨_, hres, herr⟩ := hco hstat
    exact ⟨fun _ => rfl, fun h => absurd herr h, fun h => absurd herr h.2⟩
  | SimulationJobStatus.failed =>
    obtain ⟨herr, hres⟩ := hfa hstat
    exact ⟨fun h => absurd hres h, fun _ => rfl, fun h => absurd hres h.1⟩

/-- Witness for C8 at the concrete Failed job of trace A. -/
theorem result_iff_completed_error_iff_failed_witness :
    (jrA3.result ≠ none → jrA3.status = SimulationJobStatus.completed) ∧
    (jrA3.error ≠ none → jrA3.status = SimulationJobStatus.failed) ∧
    ¬ (jrA3.result ≠ none ∧ jrA3.error ≠ none) :=
  result_iff_completed_error_iff_failed demoCfg sA3 0 jrA3 reach_sA3 rfl

/-- Claim C4: with an overall budget `t` configured, a `get_job` call on a
job observed Running whose elapsed time since entering Running strictly
exceeds `t` performs the Failed transition inline with an error message
stating the configured budget, requests cancellation of the outstanding
task (and the invariant shows the task really is outstanding — present and
not yet settled — so the source's idempotent already-done branch, which
merely drops a finished task without cancelling it, is not the one taken),
and returns the Failed snapshot to the caller. -/
theorem poll_applies_timeout (cfg : CoordConfig) (s : Coord) (j : Nat) (jr : JobRec)
    (t t0 : ℚ) (hreach : Reachable cfg s) (hj : s.jobs j = some jr)
    (hcfg : s.cfg.timeoutSeconds = some t)
    (hrun : jr.status = SimulationJobStatus.running)
    (hst : jr.startedAt = some t0) (hel : t < s.now - t0) :
    getJob s j =
      (setJob s j (timeoutFire t jr),
       Except.ok { jobId := j, status := SimulationJobStatus.failed, result := none,
                   error := some (timeoutMessage t) }) ∧
    (timeoutFire t jr).status = SimulationJobStatus.failed ∧
    (timeoutFire t jr).error = some (timeoutMessage t) ∧
    (timeoutFire t jr).cancelRequested = true ∧
    (timeoutFire t jr).startedAt = none ∧
    jr.taskPresent = true ∧ jr.phase = TaskPhase.started := by
  have hinv := (coordInv_reachable hreach).2 j jr hj
  obtain ⟨hcr, hpe, hru, hco, hfa, hfs, hse, hsp⟩ := hinv
  obtain ⟨hph, htp, _, hres, herr⟩ := hru hrun
  have hgt : ¬ s.now - t0 ≤ t := not_le.mpr hel
  have hfire := applyTimeout_fires s.cfg s.now jr t t0 hcfg hst hrun hgt
  have hfireEq : timeoutFire t jr =
      { jr with status := SimulationJobStatus.failed,
                error := some (timeoutMessage t), startedAt := none,
                cancelRequested := true } := by
    unfold timeoutFire
    rw [if_pos]
    refine ⟨htp, ?_⟩
    rw [hph]
    simp
  refine ⟨?_, ?_, ?_, ?_, ?_, htp, hph⟩
  · rw [getJob_some _ _ _ hj, hfire]
    rw [hfireEq]
    unfold snapshotJob
    rw [hres]
  · rw [hfireEq]
  · rw [hfireEq]
  · rw [hfireEq]
  · rw [hfireEq]

/-- Witness for C4: the concrete trace submit → task starts at time 0 →
clock advances to 2 under a one-second budget; the next poll fails the
job inline and returns the Failed snapshot. -/
theorem poll_applies_timeout_witness :
    (getJob sB3 0 =
      (setJob sB3 0 (timeoutFire 1 jrB2),
       Except.ok { jobId := 0, status := SimulationJobStatus.failed, result := none,
                   error := some (timeoutMessage 1) }) ∧
    (timeoutFire 1 jrB2).status = SimulationJobStatus.failed ∧
    (timeoutFire 1 jrB2).error = some (timeoutMessage 1) ∧
    (timeoutFire 1 jrB2).cancelRequested = true ∧
    (timeoutFire 1 jrB2).startedAt = none ∧
    jrB2.taskPresent = true ∧ jrB2.phase = TaskPhase.started) :=
  poll_applies_timeout demoTCfg sB3 0 jrB2 1 0 reach_sB3 rfl rfl rfl rfl
    (by simp [sB3, sB2, sB1, setJob, startSimulation_eq, submitState, initCoord])

/-- Claim C6 as stated — "when the task settles, the job's status is
always Completed or Failed" — is false on the code: `shutdown` may cancel
a job whose task was created but never ran (submit immediately followed by
shutdown; `start_simulation` returns without yielding to the scheduler, so
this interleaving is real).  The `CancelledError` then surfaces before the
task's first statement, ahead of the `try` at simulation.py line 324, so
no branch of `_execute_job` runs: the task settles and the job stays
Pending forever.  Trace C exhibits it. -/
theorem settled_terminal_counterexample :
    ¬ (∀ (cfg : CoordConfig) (s : Coord), Reachable cfg s →
        ∀ (j : Nat) (jr : JobRec), s.jobs j = some jr →
          jr.phase = TaskPhase.settled →
          jr.status = SimulationJobStatus.completed ∨
          jr.status = SimulationJobStatus.failed) := by
  intro h
  have hj : sC3.jobs 0 = some { jrC2 with phase := TaskPhase.settled } := rfl
  have h2 := h demoCfg sC3 reach_sC3 0 _ hj rfl
  rcases h2 with h2 | h2 <;> exact absurd h2 (by decide)

/-- Claim C6 (amended): every exception raised inside a job's execution
after it has entered Running is converted by the task into a terminal
status, never leaving the job in Running — in every reachable state a job
whose task has settled is never Running, and if it is not Pending it is
exactly Completed or Failed (Failed carrying an error message); a job can
remain Pending past its task's settlement only when the task was cancelled
before it began executing (the counterexample's scenario), in which case
no result and no error were fabricated.  Moreover failures are absorbed
into the owning job's state and never re-thrown to callers polling other
jobs: polling any registered job returns a snapshot, never a raised
condition. -/
theorem settled_task_never_running (cfg : CoordConfig) (s : Coord)
    (hreach : Reachable cfg s) :
    (∀ j jr, s.jobs j = some jr → jr.phase = TaskPhase.settled →
      jr.status ≠ SimulationJobStatus.running ∧
      (jr.status ≠ SimulationJobStatus.pending →
        jr.status = SimulationJobStatus.completed ∨
        jr.status = SimulationJobStatus.failed) ∧
      (jr.status = SimulationJobStatus.failed → jr.error ≠ none) ∧
      (jr.status = SimulationJobStatus.pending →
        jr.cancelRequested = true ∧ jr.result = none ∧ jr.error = none)) ∧
    (∀ k jrk, s.jobs k = some jrk → ∃ snap, (getJob s k).2 = Except.ok snap) := by
  constructor
  · intro j jr hj hph
    have hinv := (coordInv_reachable hreach).2 j jr hj
    obtain ⟨hcr, hpe, hru, hco, hfa, hfs, hse, hsp⟩ := hinv
    refine ⟨hse hph, ?_, fun hf => (hfa hf).1, ?_⟩
    · intro hnp
      match hstat : jr.status with
      | SimulationJobStatus.pending => exact absurd hstat hnp
      | SimulationJobStatus.running => exact absurd hstat (hse hph)
      | SimulationJobStatus.completed => exact Or.inl rfl
      | SimulationJobStatus.failed => exact Or.inr rfl
    · intro hp
      exact ⟨hsp hph hp, (hpe hp).1, (hpe hp).2.1⟩
  · intro k jrk hk
    rw [getJob_some _ _ _ hk]
    exact ⟨_, rfl⟩

/-- Witness for the amended C6 at the settled-Pending job of trace C. -/
theorem settled_task_never_running_witness :
    ({ jrC2 with phase := TaskPhase.settled }.status ≠ SimulationJobStatus.running ∧
      ({ jrC2 with phase := TaskPhase.settled }.status ≠ SimulationJobStatus.pending →
        { jrC2 with phase := TaskPhase.settled }.status = SimulationJobStatus.completed ∨
        { jrC2 with phase := TaskPhase.settled }.status = SimulationJobStatus.failed) ∧
      ({ jrC2 with phase := TaskPhase.settled }.status = SimulationJobStatus.failed →
        { jrC2 with phase := TaskPhase.settled }.error ≠ none) ∧
      ({ jrC2 with phase := TaskPhase.settled }.status = SimulationJobStatus.pending →
        { jrC2 with phase := TaskPhase.settled }.cancelRequested = true ∧
        { jrC2 with phase := TaskPhase.settled }.result = none ∧
        { jrC2 with phase := TaskPhase.settled }.error = none)) ∧
    (∃ snap, (getJob sC3 0).2 = Except.ok snap) :=
  ⟨(settled_task_never_running demoCfg sC3 reach_sC3).1 0
      { jrC2 with phase := TaskPhase.settled } rfl rfl,
   (settled_task_never_running demoCfg sC3 reach_sC3).2 0
      { jrC2 with phase := TaskPhase.settled } rfl⟩

/-- Claim C7: `get_job` on an identifier never returned by submit raises
the distinct unknown-identifier condition (`KeyError`, embedded as
`Except.error`) to the caller, mutating nothing — the condition is never
recorded as job state; on an identifier that submit returned it never
raises that condition: submit registers the identifier (third conjunct)
and no transition ever removes a registered job (`jobs_some_star`), so
every later lookup yields a snapshot. -/
theorem unknown_id_distinct (s s' : Coord) (j : Nat) (req : SimulationRequest) :
    (s.jobs j = none → getJob s j = (s, Except.error j)) ∧
    (∀ jr, s.jobs j = some jr → Relation.ReflTransGen Step s s' →
      ∃ snap, (getJob s' j).2 = Except.ok snap) ∧
    (startSimulation s req).1.jobs (startSimulation s req).2.jobId =
      some (newJobRec req) := by
  refine ⟨fun h => getJob_none s j h, ?_, ?_⟩
  · intro jr hj hsteps
    obtain ⟨jr', hj'⟩ := jobs_some_star hsteps hj
    rw [getJob_some _ _ _ hj']
    exact ⟨_, rfl⟩
  · rw [startSimulation_eq]
    simp [submitState]

/-- Witness for C7: identifier 5 was never submitted to a fresh
coordinator and polls as `KeyError` with the state unchanged; identifier 0
was returned by the submit of trace A and polls as a snapshot. -/
theorem unknown_id_distinct_witness :
    getJob (initCoord demoCfg) 5 = (initCoord demoCfg, Except.error 5) ∧
    (∃ snap, (getJob sA1 0).2 = Except.ok snap) :=
  ⟨(unknown_id_distinct (initCoord demoCfg) (initCoord demoCfg) 5 demoReq).1 rfl,
   (unknown_id_distinct sA1 sA1 0 demoReq).2.1 (newJobRec demoReq) rfl
     Relation.ReflTransGen.refl⟩

/-- Claim C9: `start_simulation` allocates an identifier distinct from
every previously allocated one (it is not in the job map, and allocated
identifiers never leave the map), registers under it a Pending job state
carrying the request with a just-created task bound to it, and returns
without waiting: the snapshot's status is Pending — in particular neither
Completed nor Failed. -/
theorem submit_fresh_pending (cfg : CoordConfig) (s : Coord) (req : SimulationRequest)
    (hreach : Reachable cfg s) :
    (startSimulation s req).2.jobId = s.nextId ∧
    s.jobs s.nextId = none ∧
    (startSimulation s req).1.jobs s.nextId = some (newJobRec req) ∧
    (newJobRec req).request = req ∧
    (newJobRec req).status = SimulationJobStatus.pending ∧
    (newJobRec req).taskPresent = true ∧
    (newJobRec req).phase = TaskPhase.created ∧
    (startSimulation s req).2.status = SimulationJobStatus.pending ∧
    (startSimulation s req).2.result = none ∧
    (startSimulation s req).2.error = none ∧
    (startSimulation s req).1.nextId = s.nextId + 1 := by
  have hfresh := (coordInv_reachable hreach).1 s.nextId le_rfl
  rw [startSimulation_eq]
  refine ⟨rfl, hfresh, ?_, rfl, rfl, rfl, rfl, rfl, rfl, rfl, rfl⟩
  simp [submitState]

/-- Witness for C9: submitting to a fresh coordinator. -/
theorem submit_fresh_pending_witness :
    (startSimulation (initCoord demoCfg) demoReq).2.jobId = (initCoord demoCfg).nextId ∧
    (initCoord demoCfg).jobs (initCoord demoCfg).nextId = none ∧
    (startSimulation (initCoord demoCfg) demoReq).1.jobs (initCoord demoCfg).nextId =
      some (newJobRec demoReq) ∧
    (newJobRec demoReq).request = demoReq ∧
    (newJobRec demoReq).status = SimulationJobStatus.pending ∧
    (newJobRec demoReq).taskPresent = true ∧
    (newJobRec demoReq).phase = TaskPhase.created ∧
    (startSimulation (initCoord demoCfg) demoReq).2.status = SimulationJobStatus.pending ∧
    (startSimulation (initCoord demoCfg) demoReq).2.result = none ∧
    (startSimulation (initCoord demoCfg) demoReq).2.error = none ∧
    (startSimulation (initCoord demoCfg) demoReq).1.nextId = (initCoord demoCfg).nextId + 1 :=
  submit_fresh_pending demoCfg (initCoord demoCfg) demoReq Relation.ReflTransGen.refl

/-- Claim C10: `__init__` normalizes a zero or negative value of any of
the three budgets to unconfigured (`None`), so such a coordinator has
exactly the configuration of one constructed with the budgets absent, and
a zero or negative overall timeout means unlimited execution: the lazy
check never mutates any job when no budget is configured, and no budget
value is configured at all (the proactive `settleTimeout` transition of
`_execute_job`, which requires `timeoutSeconds = some t`, is thereby
disabled too). -/
theorem nonpositive_budgets_unconfigured (t : ℚ) (m : Int) (g : ℚ)
    (ht : t ≤ 0) (hm : m ≤ 0) (hg : g ≤ 0) :
    coordinatorInit (some t) (some m) (some g) = coordinatorInit none none none ∧
    (∀ (cfg : CoordConfig) (now : ℚ) (jr : JobRec), cfg.timeoutSeconds = none →
      applyTimeoutIfNeeded cfg now jr = jr) ∧
    (∀ u : ℚ, (coordinatorInit (some t) (some m) (some g)).timeoutSeconds ≠ some u) := by
  have h1 : normPosQ (some t) = none := by
    show (if t ≠ 0 ∧ 0 < t then some t else none) = none
    rw [if_neg]
    intro hand
    exact absurd hand.2 (not_lt.mpr ht)
  have h2 : normPosInt (some m) = none := by
    show (if m ≠ 0 ∧ 0 < m then some m else none) = none
    rw [if_neg]
    intro hand
    exact absurd hand.2 (not_lt.mpr hm)
  have h3 : normPosQ (some g) = none := by
    show (if g ≠ 0 ∧ 0 < g then some g else none) = none
    rw [if_neg]
    intro hand
    exact absurd hand.2 (not_lt.mpr hg)
  refine ⟨?_, fun cfg now jr h => applyTimeout_no_budget cfg now jr h, ?_⟩
  · unfold coordinatorInit
    rw [h1, h2, h3]
    rfl
  · intro u
    unfold coordinatorInit
    rw [h1]
    simp

/-- Witness for C10 with budgets 0, -3, and -1/2. -/
theorem nonpositive_budgets_unconfigured_witness :
    coordinatorInit (some 0) (some (-3)) (some (-1/2)) = coordinatorInit none none none ∧
    (∀ (cfg : CoordConfig) (now : ℚ) (jr : JobRec), cfg.timeoutSeconds = none →
      applyTimeoutIfNeeded cfg now jr = jr) ∧
    (∀ u : ℚ, (coordinatorInit (some 0) (some (-3)) (some (-1/2))).timeoutSeconds ≠ some u) :=
  nonpositive_budgets_unconfigured 0 (-3) (-1/2) (by norm_num) (by norm_num) (by norm_num)

/-- The inner participant loop under a capability that binds the
`options` keyword and succeeds on every call: it appends exactly one
message per participant, in participant-list order, each carrying that
participant's role. -/
theorem runParticipants_all_ok (req : SimulationRequest) (cap : GenCap)
    (mt : Option Int) (gt : Option ℚ)
    (hopt : cap.acceptsOptions = true)
    (hok : ∀ (n : Nat) (p : String) (o : Option Int),
      ∃ r, cap.call n p o = GenOutcome.ok r) :
    ∀ (ps : List SimulationParticipant) (acc : List ChatMessage) (n : Nat),
      ∃ ms : List ChatMessage,
        runParticipants req cap mt gt ps acc n =
          RunResult.ok (acc ++ ms, n + ps.length) ∧
        ms.length = ps.length ∧
        ms.map ChatMessage.role = ps.map SimulationParticipant.role := by
  intro ps
  induction ps with
  | nil =>
    intro acc n
    exact ⟨[], by simp [runParticipants], rfl, rfl⟩
  | cons p rest ih =>
    intro acc n
    obtain ⟨r, hr⟩ := hok n (buildPrompt req acc p) (replyOptions mt)
    obtain ⟨ms2, hrun, hlen, hmap⟩ := ih (acc ++ [{ role := p.role, content := r }]) (n + 1)
    have hstep : participantStep req cap mt gt acc n p =
        RunResult.ok (acc ++ [{ role := p.role, content := r }], n + 1) := by
      simp [participantStep, hopt, hr]
    refine ⟨{ role := p.role, content := r } :: ms2, ?_, by simp [hlen], by simp [hmap]⟩
    simp only [runParticipants, hstep]
    rw [hrun]
    have h1 : (acc ++ [{ role := p.role, content := r }]) ++ ms2 =
        acc ++ { role := p.role, content := r } :: ms2 := by simp
    have h2 : n + 1 + rest.length = n + (rest.length + 1) := by omega
    rw [h1, h2]
    rfl

/-- The outer turn loop under an all-succeeding, `options`-binding
capability: `t` rounds append `t × participant_count` messages whose roles
are `t` repetitions of the participant-role list, in order. -/
theorem runTurns_all_ok (req : SimulationRequest) (cap : GenCap)
    (mt : Option Int) (gt : Option ℚ)
    (hopt : cap.acceptsOptions = true)
    (hok : ∀ (n : Nat) (p : String) (o : Option Int),
      ∃ r, cap.call n p o = GenOutcome.ok r) :
    ∀ (t : Nat) (acc : List ChatMessage) (n : Nat),
      ∃ ms : List ChatMessage,
        runTurns req cap mt gt t acc n =
          RunResult.ok (acc ++ ms, n + t * req.participants.length) ∧
        ms.length = t * req.participants.length ∧
        ms.map ChatMessage.role =
          (List.replicate t (req.participants.map SimulationParticipant.role)).flatten := by
  intro t
  induction t with
  | zero =>
    intro acc n
    refine ⟨[], ?_, by simp, rfl⟩
    simp [runTurns]
  | succ t ih =>
    intro acc n
    obtain ⟨ms1, hrun1, hlen1, hmap1⟩ :=
      runParticipants_all_ok req cap mt gt hopt hok req.participants acc n
    obtain ⟨ms2, hrun2, hlen2, hmap2⟩ := ih (acc ++ ms1) (n + req.participants.length)
    refine ⟨ms1 ++ ms2, ?_, ?_, ?_⟩
    · simp only [runTurns, hrun1]
      rw [hrun2]
      have h1 : (acc ++ ms1) ++ ms2 = acc ++ (ms1 ++ ms2) := by simp
      have h2 : n + req.participants.length + t * req.participants.length =
          n + (t + 1) * req.participants.length := by
        rw [Nat.succ_mul]
        omega
      rw [h1, h2]
    · rw [List.length_append, hlen1, hlen2, Nat.succ_mul]
      omega
    · rw [List.map_append, hmap1, hmap2, List.replicate_succ, List.flatten_cons]

/-- Indexing a flattened repetition of a block: position
`t * blockLength + i` reads entry `i` of the block. -/
theorem flatten_replicate_getElem (l : List String) :
    ∀ (T t i : Nat), t < T → i < l.length →
      ((List.replicate T l).flatten)[t * l.length + i]? = l[i]? := by
  intro T
  induction T with
  | zero =>
    intro t i ht hi
    exact absurd ht (Nat.not_lt_zero t)
  | succ T ih =>
    intro t i ht hi
    rw [List.replicate_succ, List.flatten_cons]
    match t with
    | 0 =>
      simp only [Nat.zero_mul, Nat.zero_add]
      exact List.getElem?_append_left hi
    | t + 1 =>
      have hidx : (t + 1) * l.length + i = l.length + (t * l.length + i) := by
        rw [Nat.succ_mul]
        omega
      rw [hidx, List.getElem?_append_right (by omega)]
      have hsub : l.length + (t * l.length + i) - l.length = t * l.length + i := by omega
      rw [hsub]
      exact ih t i (by omega) hi

/-- Claim C2 is contradicted by the code (the repository's own tests
assert the claimed behaviour and fail against it), while its content about
the turn loop itself is right.  First conjunct: for *every* request and
*every* generation capability whose calls all succeed (read charitably as
also binding the `options` keyword — the repository's own stubs,
`generate(self, prompt)`, do not even bind it), the loop of simulation.py
lines 189-215 does produce a transcript of exactly
`turns × participant_count` messages, enumerated turn-major and
participant-minor: the message at position `t × participant_count + i`
carries the role of participant `i` of the request, for every turn `t` and
index `i`.  But `run_simulation` never returns that transcript: line 217
then calls `generate_summary(transcript, ollama_client, max_tokens=...)`,
and `memory.generate_summary` has no `max_tokens` parameter, so every run
ends in `TypeError` instead of a result (second conjunct); with the
repository's own stub signature the `options` keyword raises already at
the first reply call (third conjunct). -/
theorem transcript_never_returned (req : SimulationRequest) (cap : GenCap)
    (mt : Option Int) (gt : Option ℚ)
    (hopt : cap.acceptsOptions = true)
    (hok : ∀ (n : Nat) (p : String) (o : Option Int),
      ∃ r, cap.call n p o = GenOutcome.ok r) :
    (∃ transcript : List ChatMessage,
      runTurns req cap mt gt req.turns [] 0 =
        RunResult.ok (transcript, req.turns * req.participants.length) ∧
      transcript.length = req.turns * req.participants.length ∧
      (∀ t i, t < req.turns → i < req.participants.length →
        (transcript[t * req.participants.length + i]?).map ChatMessage.role =
          (req.participants[i]?).map SimulationParticipant.role)) ∧
    run_simulation req cap mt gt =
      RunResult.error (PyError.typeError maxTokensKwargTypeErrorMsg) ∧
    run_simulation specScenarioReq failingCap none none =
      RunResult.error (PyError.typeError optionsKwargTypeErrorMsg) := by
  obtain ⟨ms, hrun, hlen, hmap⟩ := runTurns_all_ok req cap mt gt hopt hok req.turns [] 0
  have hrun0 : runTurns req cap mt gt req.turns [] 0 =
      RunResult.ok (ms, req.turns * req.participants.length) := by
    rw [hrun]
    simp
  refine ⟨⟨ms, hrun0, hlen, ?_⟩, ?_, rfl⟩
  · intro t i ht hi
    have hP : (req.participants.map SimulationParticipant.role).length =
        req.participants.length := List.length_map _ _
    have hjoin := flatten_replicate_getElem
      (req.participants.map SimulationParticipant.role) req.turns t i ht
      (by rw [hP]; exact hi)
    rw [hP] at hjoin
    rw [← List.getElem?_map, hmap, hjoin, List.getElem?_map]
  · simp only [run_simulation, hrun0]

/-- Witness for C2 on the spec's scenario (`turns=2`, Engineer and
Strategist, the stub answering `response-1`, `response-2`, … in call
order): the loop yields the four-message turn-major transcript shown
explicitly in the last conjunct, yet `run_simulation` raises
`TypeError`. -/
theorem transcript_never_returned_witness :
    ((∃ transcript : List ChatMessage,
      runTurns specScenarioReq seqCap none none specScenarioReq.turns [] 0 =
        RunResult.ok (transcript,
          specScenarioReq.turns * specScenarioReq.participants.length) ∧
      transcript.length = specScenarioReq.turns * specScenarioReq.participants.length ∧
      (∀ t i, t < specScenarioReq.turns → i < specScenarioReq.participants.length →
        (transcript[t * specScenarioReq.participants.length + i]?).map ChatMessage.role =
          (specScenarioReq.participants[i]?).map SimulationParticipant.role)) ∧
    run_simulation specScenarioReq seqCap none none =
      RunResult.error (PyError.typeError maxTokensKwargTypeErrorMsg) ∧
    run_simulation specScenarioReq failingCap none none =
      RunResult.error (PyError.typeError optionsKwargTypeErrorMsg)) ∧
    runTurns specScenarioReq seqCap none none specScenarioReq.turns [] 0 =
      RunResult.ok
        ([{ role := "Engineer", content := "response-1" },
          { role := "Strategist", content := "response-2" },
          { role := "Engineer", content := "response-3" },
          { role := "Strategist", content := "response-4" }], 4) :=
  ⟨transcript_never_returned specScenarioReq seqCap none none rfl
      (fun n _ _ => ⟨"response-" ++ toString (n + 1), rfl⟩),
   rfl⟩

/-- Claim C3 is contradicted by the code: the configured token cap is
*not* forwarded to every generation call.  With the cap set to 50 and a
compliant capability that succeeds exactly when it receives
`num_predict = 50`, every per-participant reply call does receive the cap
(otherwise the run would abort with the dialogue-level `SimulationError`),
but the run still dies with `TypeError` at the summary stage, because
`memory.generate_summary` accepts no `max_tokens` keyword (first
conjunct); against the real `OllamaClient.generate(self, prompt,
context=None)` signature the cap cannot be forwarded at all — the first
reply call already raises `TypeError` (second conjunct); and the actual
summary helper forwards no cap whatsoever: its one generation call passes
no `num_predict` value (third conjunct, definitional). -/
theorem token_cap_not_forwarded :
    run_simulation demoReq optCheckCap (some 50) none =
      RunResult.error (PyError.typeError maxTokensKwargTypeErrorMsg) ∧
    run_simulation demoReq failingCap (some 50) none =
      RunResult.error (PyError.typeError optionsKwargTypeErrorMsg) ∧
    (∀ (messages : List ChatMessage) (cap : GenCap) (n : Nat),
      generate_summary messages cap n = cap.call n (summaryPrompt messages) none) :=
  ⟨rfl, rfl, fun _ _ _ => rfl⟩

/-- Claim C5 is contradicted by the code on the repository's own test
scenario: with the test suite's `FailingOllamaClient` (whose `generate`
accepts only `prompt` and raises on every call), the run aborts not with a
dialogue-level error naming the first participant but with the `TypeError`
from passing the unexpected `options` keyword, raised at simulation.py
line 197 *outside* the `try`, and that message does not contain
"Engineer" (first two conjuncts).  Only a capability that also binds the
`options` keyword gets the claimed behaviour: then a raising call is
wrapped into a `SimulationError` naming the first participant attempted
(last two conjuncts). -/
theorem failing_capability_error_not_role :
    run_simulation demoReq failingCap none none =
      RunResult.error (PyError.typeError optionsKwargTypeErrorMsg) ∧
    containsSubstr optionsKwargTypeErrorMsg "Engineer" = false ∧
    run_simulation demoReq raisingCap none none =
      RunResult.error (PyError.simulationError
        "Failed to generate a reply for role \x27Engineer\x27.") ∧
    containsSubstr "Failed to generate a reply for role \x27Engineer\x27." "Engineer" = true := by
  refine ⟨rfl, ?_, rfl, ?_⟩ <;> decide

end SimSpec
